import Mathlib

/-!
Verification of the sampling-based silence classifier in `cleanup.py`
(wav-silence-cleaner).

The development shallowly embeds the program:

* `compute_sample_positions` mirrors the Python planner of the same name.
  NumPy's `linspace(0, max_start, num, dtype=int64)` computes evenly spaced
  values in float64 and truncates to integers; here it is modelled with exact
  integer arithmetic, `i * max_start / (num - 1)` with floor division
  (operands are non-negative, so floor and truncation agree), and
  `np.unique` (sort ascending, drop duplicates) is modelled by `np_unique`.
* Audio samples are normalized floating-point amplitudes in the source;
  they are modelled as rationals (`ℚ`), and Python exceptions as `PyExc`
  values carried in `Except`.
* A `.wav` file on disk is modelled by `WavFile`: the result of `stat`
  (size in bytes or an exception), and the result of opening it with
  soundfile (metadata plus a seek-and-read function, or an exception).
* `scan_wav_for_silence` mirrors the Python classifier; the chunk loop is
  the recursive `scan_chunks`.  Human-readable `detail` strings are
  modelled by the `Detail` inductive, one constructor per f-string in the
  source, carrying the data the string interpolates.
* The pipeline loop of `main` (lines 329-366) is `process_outcome` /
  `run_scan`.  `os.remove` is an external effect; it is modelled by a
  function argument `remove`, and the state records in `delete_attempts`
  every outcome whose path was passed to `remove`, so that claims about
  which files deletion touches are statable.
-/

/-- A Python exception, as observed by `except Exception as e`:
the class name `type(e).__name__` and the message `str(e)`. -/
structure PyExc where
  excName : String
  excMsg : String
deriving DecidableEq

/-- The human-readable `detail` field.  Each constructor corresponds to one
f-string in `cleanup.py`, with the interpolated data as payload. -/
inductive Detail where
  /-- Message for a file below MIN_SIZE_BYTES, interpolating both sizes. -/
  | belowMinSize (size_bytes min_size : Nat)
  /-- Message that sample positions could not be computed from the
  metadata (invalid WAV metadata or empty audio). -/
  | couldNotComputePositions
  /-- Message that a non-silent chunk was found, interpolating its peak. -/
  | nonSilentChunk (peak : ℚ)
  /-- Message that all sampled chunks were below the threshold. -/
  | allBelowThreshold
  /-- Message of the catch-all except branch: the exception class name
  followed by its text. -/
  | exceptionCaught (excName excMsg : String)
  /-- Message that deleting the file failed, interpolating the exception
  class name and text. -/
  | deleteFailed (excName excMsg : String)
deriving DecidableEq

/-- The `ScanResult` dataclass of `cleanup.py`, field for field. -/
structure ScanResult where
  path : String
  decision : String
  detail : Detail
  size_bytes : Nat
  duration_sec : ℚ
  samplerate : Int
  channels : Int
  interval_seconds : Int
  num_samples_used : Nat
  threshold : ℚ
  max_abs_seen : ℚ
deriving DecidableEq

/-- The module-level configuration constants of `cleanup.py` that the
classifier reads (`INTERVAL_SECONDS`, `NUM_SAMPLES_PER_FILE`,
`SILENCE_THRESHOLD`, `MIN_SIZE_BYTES`), gathered into a record so the
theorems quantify over them. -/
structure Config where
  interval_seconds : Int
  num_samples_per_file : Int
  silence_threshold : ℚ
  min_size_bytes : Nat

/-- NumPy's `np.unique` on a one-dimensional array: sort ascending and
remove duplicates. -/
def np_unique (l : List Int) : List Int :=
  (List.insertionSort (· ≤ ·) l).dedup

/-- Python's `compute_sample_positions(total_frames, sr, interval_seconds,
num_samples)` from `cleanup.py` lines 89-123.  Returns `(starts, frames_per_interval)`.
`np.linspace(0, max_start, num=max(1, num_samples), dtype=np.int64)` is
modelled by exact integer arithmetic: entry `i` is
`i * max_start / (max 1 num_samples - 1)` (floor division; NumPy computes the
same grid in float64 and truncates, and pins the final entry to `max_start`,
which the exact formula also yields).  When `num = 1` the grid is the single
point `0`, which the formula gives as well (division by zero is zero). -/
def compute_sample_positions (total_frames sr interval_seconds num_samples : Int) :
    List Int × Int :=
  let frames_per_interval := sr * interval_seconds
  if sr ≤ 0 ∨ total_frames ≤ 0 ∨ frames_per_interval ≤ 0 then
    ([], frames_per_interval)
  else if total_frames ≤ frames_per_interval then
    ([0], frames_per_interval)
  else
    let max_start := total_frames - frames_per_interval
    let num := max 1 num_samples
    let starts := (List.range num.toNat).map fun (i : Nat) => (i : Int) * max_start / (num - 1)
    (np_unique starts, frames_per_interval)

/-- The metadata and read capability obtained from a successfully opened
`sf.SoundFile`: `f.samplerate`, `f.channels`, `len(f)`, and the combined
effect of `f.seek(start)` followed by
`f.read(frames, dtype="float32", always_2d=True)`; the returned array is
modelled as the flat list of its samples (all channels), and any exception
raised while seeking or reading as `Except.error`. -/
structure AudioInfo where
  samplerate : Int
  channels : Int
  total_frames : Int
  readChunk : Int → Int → Except PyExc (List ℚ)

/-- A file on disk, as the classifier observes it: the result of
`wav_path.stat().st_size` and the result of `sf.SoundFile(wav_path)`. -/
structure WavFile where
  path : String
  stat : Except PyExc Nat
  openSf : Except PyExc AudioInfo

/-- Peak absolute amplitude of a chunk: `float(np.max(np.abs(data)))`.
For a nonempty chunk the `0` base of the fold is absorbed, since absolute
values are non-negative. -/
def peakAbs (l : List ℚ) : ℚ :=
  l.foldr (fun x m => max |x| m) 0

/-- Outcome of the chunk-scanning loop (lines 184-213): a read raised an
exception (caught by the outer `except`), a chunk exceeded the threshold
(early exit with that chunk's peak and the running maximum), or the loop
completed (with the running maximum). -/
inductive LoopOut where
  | err (e : PyExc)
  | keep (peak max_abs_seen : ℚ)
  | silent (max_abs_seen : ℚ)
deriving DecidableEq

/-- The `for start in starts:` loop of `scan_wav_for_silence`
(lines 184-213): seek and read `frames_per_interval` frames at each start,
skip empty reads, track the running maximum peak, and exit early the
instant a peak strictly exceeds the threshold. -/
def scan_chunks (read : Int → Int → Except PyExc (List ℚ))
    (frames_per_interval : Int) (thr : ℚ) :
    List Int → ℚ → LoopOut
  | [], max_abs_seen => .silent max_abs_seen
  | start :: rest, max_abs_seen =>
    match read start frames_per_interval with
    | .error e => .err e
    | .ok data =>
      if data = [] then
        scan_chunks read frames_per_interval thr rest max_abs_seen
      else
        let peak := peakAbs data
        let m := max max_abs_seen peak
        if thr < peak then .keep peak m
        else scan_chunks read frames_per_interval thr rest m

/-- The `except Exception` branch of `scan_wav_for_silence`
(lines 230-244): every failure becomes an ERROR outcome with zeroed
metadata and the exception's class name and message as detail. -/
def error_outcome (cfg : Config) (p : String) (e : PyExc) : ScanResult :=
  { path := p
    decision := "ERROR"
    detail := .exceptionCaught e.excName e.excMsg
    size_bytes := 0
    duration_sec := 0
    samplerate := 0
    channels := 0
    interval_seconds := cfg.interval_seconds
    num_samples_used := 0
    threshold := cfg.silence_threshold
    max_abs_seen := 0 }

/-- Python's `scan_wav_for_silence(wav_path)` from `cleanup.py`
lines 126-244. -/
def scan_wav_for_silence (cfg : Config) (f : WavFile) : ScanResult :=
  match f.stat with
  | .error e => error_outcome cfg f.path e
  | .ok size_bytes =>
    if size_bytes < cfg.min_size_bytes then
      { path := f.path
        decision := "KEEP"
        detail := .belowMinSize size_bytes cfg.min_size_bytes
        size_bytes := size_bytes
        duration_sec := 0
        samplerate := 0
        channels := 0
        interval_seconds := cfg.interval_seconds
        num_samples_used := 0
        threshold := cfg.silence_threshold
        max_abs_seen := 0 }
    else
      match f.openSf with
      | .error e => error_outcome cfg f.path e
      | .ok a =>
        let duration_sec : ℚ :=
          if 0 < a.samplerate then (a.total_frames : ℚ) / (a.samplerate : ℚ) else 0
        let sp := compute_sample_positions a.total_frames a.samplerate
          cfg.interval_seconds cfg.num_samples_per_file
        let starts := sp.1
        let frames_per_interval := sp.2
        if starts = [] then
          { path := f.path
            decision := "ERROR"
            detail := .couldNotComputePositions
            size_bytes := size_bytes
            duration_sec := duration_sec
            samplerate := a.samplerate
            channels := a.channels
            interval_seconds := cfg.interval_seconds
            num_samples_used := 0
            threshold := cfg.silence_threshold
            max_abs_seen := 0 }
        else
          match scan_chunks a.readChunk frames_per_interval cfg.silence_threshold starts 0 with
          | .err e => error_outcome cfg f.path e
          | .keep peak m =>
            { path := f.path
              decision := "KEEP"
              detail := .nonSilentChunk peak
              size_bytes := size_bytes
              duration_sec := duration_sec
              samplerate := a.samplerate
              channels := a.channels
              interval_seconds := cfg.interval_seconds
              num_samples_used := starts.length
              threshold := cfg.silence_threshold
              max_abs_seen := m }
          | .silent m =>
            { path := f.path
              decision := "SILENT"
              detail := .allBelowThreshold
              size_bytes := size_bytes
              duration_sec := duration_sec
              samplerate := a.samplerate
              channels := a.channels
              interval_seconds := cfg.interval_seconds
              num_samples_used := starts.length
              threshold := cfg.silence_threshold
              max_abs_seen := m }

/-- The sample plan `scan_wav_for_silence` computes for an opened file:
the call on lines 159-164, abbreviated for the theorems. -/
def planOf (cfg : Config) (a : AudioInfo) : List Int × Int :=
  compute_sample_positions a.total_frames a.samplerate
    cfg.interval_seconds cfg.num_samples_per_file

/-- The two recognized values of `MODE`. -/
inductive Mode where
  | AUDIT
  | DELETE
deriving DecidableEq

/-- The mutable state of the pipeline loop in `main` (lines 312-326):
the terminal-summary counters, the byte totals, and the CSV report rows.
`delete_attempts` is instrumentation with no counterpart variable in the
source: it records, in order, each outcome whose path `main` passes to
`os.remove` (line 342), so that the theorems can speak about which files
the destructive mode touches. -/
structure RunState where
  scanned : Nat
  silent_candidates : Nat
  deleted_count : Nat
  error_count : Nat
  bytes_candidate_savings : Nat
  bytes_deleted_savings : Nat
  report_rows : List ScanResult
  delete_attempts : List ScanResult
deriving DecidableEq

/-- The state at the top of `main`: all counters zero, no rows. -/
def initState : RunState :=
  { scanned := 0, silent_candidates := 0, deleted_count := 0, error_count := 0
    bytes_candidate_savings := 0, bytes_deleted_savings := 0
    report_rows := [], delete_attempts := [] }

/-- The synthetic ERROR row `main` appends when deleting a SILENT file
fails (lines 348-362): every field cloned from the original outcome except
`decision` and `detail`. -/
def delete_failed_row (res : ScanResult) (e : PyExc) : ScanResult :=
  { res with decision := "ERROR", detail := .deleteFailed e.excName e.excMsg }

/-- One iteration of the `for wav in ...` loop of `main` (lines 329-366),
applied to the `ScanResult` of the current file.  `remove` models
`os.remove`: success or the exception it raises. -/
def process_outcome (mode : Mode) (remove : String → Except PyExc Unit)
    (st : RunState) (res : ScanResult) : RunState :=
  let st := { st with scanned := st.scanned + 1 }
  if res.decision = "SILENT" then
    let st := { st with
      silent_candidates := st.silent_candidates + 1
      bytes_candidate_savings := st.bytes_candidate_savings + res.size_bytes
      report_rows := st.report_rows ++ [res] }
    if mode = .DELETE then
      let st := { st with delete_attempts := st.delete_attempts ++ [res] }
      match remove res.path with
      | .ok _ => { st with
          deleted_count := st.deleted_count + 1
          bytes_deleted_savings := st.bytes_deleted_savings + res.size_bytes }
      | .error e => { st with
          error_count := st.error_count + 1
          report_rows := st.report_rows ++ [delete_failed_row res e] }
    else st
  else if res.decision = "ERROR" then
    { st with error_count := st.error_count + 1, report_rows := st.report_rows ++ [res] }
  else st

/-- The whole pipeline loop of `main`: classify each file in order and
fold `process_outcome` over the outcomes. -/
def run_scan (mode : Mode) (remove : String → Except PyExc Unit)
    (cfg : Config) (files : List WavFile) : RunState :=
  files.foldl (fun st f => process_outcome mode remove st (scan_wav_for_silence cfg f))
    initState

/-- The peaks of the chunks the loop would measure along a list of starts:
one entry per start whose read succeeds with a nonempty chunk (failed reads
and empty reads contribute nothing). -/
def peaksOf (read : Int → Int → Except PyExc (List ℚ)) (fpi : Int)
    (starts : List Int) : List ℚ :=
  starts.filterMap fun s =>
    match read s fpi with
    | .error _ => none
    | .ok data => if data = [] then none else some (peakAbs data)

theorem peakAbs_nonneg (l : List ℚ) : 0 ≤ peakAbs l := by
  induction l with
  | nil => simp [peakAbs]
  | cons x xs ih =>
    have : peakAbs (x :: xs) = max |x| (peakAbs xs) := rfl
    rw [this]
    exact le_max_of_le_right ih

/-- If the chunk loop completes without early exit, every measured peak is
at most the threshold and the returned running maximum is the fold of
`max` over all measured peaks, starting from the incoming accumulator. -/
theorem scan_chunks_silent_spec (read : Int → Int → Except PyExc (List ℚ))
    (fpi : Int) (thr : ℚ) (starts : List Int) (m0 m : ℚ)
    (h : scan_chunks read fpi thr starts m0 = .silent m) :
    (∀ p ∈ peaksOf read fpi starts, p ≤ thr) ∧
      m = (peaksOf read fpi starts).foldl max m0 := by
  induction starts generalizing m0 with
  | nil =>
    simp only [scan_chunks, LoopOut.silent.injEq] at h
    simp [peaksOf, h]
  | cons s rest ih =>
    rw [scan_chunks] at h
    cases hr : read s fpi with
    | error e => rw [hr] at h; exact absurd h (by simp)
    | ok data =>
      rw [hr] at h
      dsimp only at h
      by_cases hd : data = []
      · rw [if_pos hd] at h
        have hrec := ih m0 h
        have hpk : peaksOf read fpi (s :: rest) = peaksOf read fpi rest := by
          simp [peaksOf, hr, hd]
        rw [hpk]
        exact hrec
      · rw [if_neg hd] at h
        by_cases hp : thr < peakAbs data
        · rw [if_pos hp] at h; exact absurd h (by simp)
        · rw [if_neg hp] at h
          have hrec := ih (max m0 (peakAbs data)) h
          have hpk : peaksOf read fpi (s :: rest) =
              peakAbs data :: peaksOf read fpi rest := by
            simp [peaksOf, hr, hd]
          rw [hpk]
          refine ⟨?_, ?_⟩
          · intro p hpmem
            rcases List.mem_cons.mp hpmem with rfl | hpmem
            · exact not_lt.mp hp
            · exact hrec.1 p hpmem
          · simpa [List.foldl_cons] using hrec.2

/-- If every start before `k` reads back either empty data or a chunk whose
peak is at most the threshold, and the chunk at `k` is nonempty with peak
strictly above the threshold, the loop stops at `k` and returns KEEP with
that chunk's peak as both the reported peak and the running maximum —
whatever starts follow `k`. -/
theorem scan_chunks_keep_first (read : Int → Int → Except PyExc (List ℚ))
    (fpi : Int) (thr : ℚ) (pre : List Int) (k : Int) (post : List Int)
    (d : List ℚ) (m0 : ℚ)
    (hpre : ∀ s ∈ pre, ∃ dd, read s fpi = .ok dd ∧ (dd ≠ [] → peakAbs dd ≤ thr))
    (hk : read k fpi = .ok d) (hd : d ≠ []) (hv : thr < peakAbs d)
    (h0 : 0 ≤ m0) (hm : m0 ≤ peakAbs d) :
    scan_chunks read fpi thr (pre ++ k :: post) m0 = .keep (peakAbs d) (peakAbs d) := by
  induction pre generalizing m0 with
  | nil =>
    rw [List.nil_append, scan_chunks, hk]
    dsimp only
    rw [if_neg hd, if_pos hv, max_eq_right hm]
  | cons s pre ih =>
    obtain ⟨dd, hr, hbound⟩ := hpre s (List.mem_cons_self s pre)
    rw [List.cons_append, scan_chunks, hr]
    dsimp only
    by_cases hdd : dd = []
    · rw [if_pos hdd]
      exact ih m0 (fun x hx => hpre x (List.mem_cons_of_mem s hx)) h0 hm
    · rw [if_neg hdd]
      have hle : peakAbs dd ≤ thr := hbound hdd
      rw [if_neg (not_lt.mpr hle)]
      exact ih (max m0 (peakAbs dd))
        (fun x hx => hpre x (List.mem_cons_of_mem s hx))
        (le_max_of_le_left h0) (max_le hm (hle.trans hv.le))

/-- If every planned read returns empty data, every chunk is skipped and
the loop completes with the accumulator untouched. -/
theorem scan_chunks_all_empty (read : Int → Int → Except PyExc (List ℚ))
    (fpi : Int) (thr : ℚ) (starts : List Int) (m0 : ℚ)
    (h : ∀ s ∈ starts, read s fpi = .ok []) :
    scan_chunks read fpi thr starts m0 = .silent m0 := by
  induction starts with
  | nil => rw [scan_chunks]
  | cons s rest ih =>
    rw [scan_chunks, h s (List.mem_cons_self s rest)]
    dsimp only
    rw [if_pos rfl]
    exact ih fun x hx => h x (List.mem_cons_of_mem s hx)

/-- NumPy's `np.unique` returns a strictly ascending array. -/
theorem np_unique_sorted_lt (l : List Int) : List.Sorted (· < ·) (np_unique l) := by
  have hs : List.Sorted (· ≤ ·) (List.insertionSort (· ≤ ·) l) :=
    List.sorted_insertionSort _ l
  have hle : List.Sorted (· ≤ ·) (np_unique l) :=
    List.Pairwise.sublist (List.dedup_sublist _) hs
  have hnd : (np_unique l).Nodup := List.nodup_dedup _
  exact (hle.and hnd).imp fun h => lt_of_le_of_ne h.1 h.2

/-- NumPy's `np.unique` preserves the set of values. -/
theorem np_unique_mem {a : Int} {l : List Int} : a ∈ np_unique l ↔ a ∈ l := by
  simp [np_unique, List.mem_dedup]

/-- The duration `scan_wav_for_silence` computes on line 157. -/
def durationOf (a : AudioInfo) : ℚ :=
  if 0 < a.samplerate then (a.total_frames : ℚ) / (a.samplerate : ℚ) else 0

theorem scan_wav_stat_error (cfg : Config) (f : WavFile) (e : PyExc)
    (h : f.stat = .error e) :
    scan_wav_for_silence cfg f = error_outcome cfg f.path e := by
  simp [scan_wav_for_silence, h]

theorem scan_wav_open_error (cfg : Config) (f : WavFile) (size : Nat) (e : PyExc)
    (hstat : f.stat = .ok size) (hgate : ¬ size < cfg.min_size_bytes)
    (hopen : f.openSf = .error e) :
    scan_wav_for_silence cfg f = error_outcome cfg f.path e := by
  simp [scan_wav_for_silence, hstat, hgate, hopen]

theorem scan_wav_empty_plan (cfg : Config) (f : WavFile) (size : Nat) (a : AudioInfo)
    (hstat : f.stat = .ok size) (hgate : ¬ size < cfg.min_size_bytes)
    (hopen : f.openSf = .ok a) (hpl : (planOf cfg a).1 = []) :
    scan_wav_for_silence cfg f =
      { path := f.path, decision := "ERROR", detail := .couldNotComputePositions
        size_bytes := size, duration_sec := durationOf a
        samplerate := a.samplerate, channels := a.channels
        interval_seconds := cfg.interval_seconds, num_samples_used := 0
        threshold := cfg.silence_threshold, max_abs_seen := 0 } := by
  rw [planOf] at hpl
  simp [scan_wav_for_silence, hstat, hgate, hopen, hpl, durationOf]

theorem scan_wav_loop_err (cfg : Config) (f : WavFile) (size : Nat) (a : AudioInfo)
    (e : PyExc)
    (hstat : f.stat = .ok size) (hgate : ¬ size < cfg.min_size_bytes)
    (hopen : f.openSf = .ok a) (hpl : (planOf cfg a).1 ≠ [])
    (hloop : scan_chunks a.readChunk (planOf cfg a).2 cfg.silence_threshold
      (planOf cfg a).1 0 = .err e) :
    scan_wav_for_silence cfg f = error_outcome cfg f.path e := by
  rw [planOf] at hpl hloop
  simp [scan_wav_for_silence, hstat, hgate, hopen, hpl, hloop]

theorem scan_wav_loop_keep (cfg : Config) (f : WavFile) (size : Nat) (a : AudioInfo)
    (p m : ℚ)
    (hstat : f.stat = .ok size) (hgate : ¬ size < cfg.min_size_bytes)
    (hopen : f.openSf = .ok a) (hpl : (planOf cfg a).1 ≠ [])
    (hloop : scan_chunks a.readChunk (planOf cfg a).2 cfg.silence_threshold
      (planOf cfg a).1 0 = .keep p m) :
    scan_wav_for_silence cfg f =
      { path := f.path, decision := "KEEP", detail := .nonSilentChunk p
        size_bytes := size, duration_sec := durationOf a
        samplerate := a.samplerate, channels := a.channels
        interval_seconds := cfg.interval_seconds
        num_samples_used := (planOf cfg a).1.length
        threshold := cfg.silence_threshold, max_abs_seen := m } := by
  rw [planOf] at hpl hloop ⊢
  simp [scan_wav_for_silence, hstat, hgate, hopen, hpl, hloop, durationOf]

theorem scan_wav_loop_silent (cfg : Config) (f : WavFile) (size : Nat) (a : AudioInfo)
    (m : ℚ)
    (hstat : f.stat = .ok size) (hgate : ¬ size < cfg.min_size_bytes)
    (hopen : f.openSf = .ok a) (hpl : (planOf cfg a).1 ≠ [])
    (hloop : scan_chunks a.readChunk (planOf cfg a).2 cfg.silence_threshold
      (planOf cfg a).1 0 = .silent m) :
    scan_wav_for_silence cfg f =
      { path := f.path, decision := "SILENT", detail := .allBelowThreshold
        size_bytes := size, duration_sec := durationOf a
        samplerate := a.samplerate, channels := a.channels
        interval_seconds := cfg.interval_seconds
        num_samples_used := (planOf cfg a).1.length
        threshold := cfg.silence_threshold, max_abs_seen := m } := by
  rw [planOf] at hpl hloop ⊢
  simp [scan_wav_for_silence, hstat, hgate, hopen, hpl, hloop, durationOf]

/-- Claim C5: for every valid input (`sampleRate > 0`, `totalFrames > 0`,
`framesPerChunk > 0`) with `totalFrames ≤ framesPerChunk`, the sample plan
is exactly one offset at frame 0, regardless of the requested sample
count. -/
theorem plan_short_file_single_offset
    (total_frames sr interval_seconds num_samples : Int)
    (hsr : 0 < sr) (htf : 0 < total_frames)
    (hfpi : 0 < sr * interval_seconds)
    (hshort : total_frames ≤ sr * interval_seconds) :
    (compute_sample_positions total_frames sr interval_seconds num_samples).1 = [0] := by
  simp only [compute_sample_positions]
  rw [if_neg (by push_neg; exact ⟨hsr, htf, hfpi⟩), if_pos hshort]

/-- Witness for C5: a 3-frame file at 1 Hz with 7-second chunks is planned
as the single offset 0, even though 16 samples were requested. -/
theorem plan_short_file_single_offset_witness :
    (compute_sample_positions 3 1 7 16).1 = [0] :=
  plan_short_file_single_offset 3 1 7 16 (by decide) (by decide) (by decide) (by decide)

/-- Claim C6: for every valid input with `totalFrames > framesPerChunk`,
the planner generates `max 1 desiredCount` offsets evenly spaced
(inclusive) between 0 and `maxStart = totalFrames - framesPerChunk`,
rounded to integer frame indices and deduplicated (`np_unique`); the
resulting offsets are strictly ascending, the plan is nonempty, and every
offset `o` satisfies `0 ≤ o` and `o + framesPerChunk ≤ totalFrames`. -/
theorem plan_long_file_offsets_ascending_bounded
    (total_frames sr interval_seconds num_samples : Int)
    (hsr : 0 < sr) (htf : 0 < total_frames)
    (hfpi : 0 < sr * interval_seconds)
    (hlong : sr * interval_seconds < total_frames) :
    (compute_sample_positions total_frames sr interval_seconds num_samples).1 =
      np_unique ((List.range (max 1 num_samples).toNat).map fun (i : Nat) =>
        (i : Int) * (total_frames - sr * interval_seconds) / (max 1 num_samples - 1)) ∧
    List.Sorted (· < ·)
      (compute_sample_positions total_frames sr interval_seconds num_samples).1 ∧
    (compute_sample_positions total_frames sr interval_seconds num_samples).1 ≠ [] ∧
    ∀ o ∈ (compute_sample_positions total_frames sr interval_seconds num_samples).1,
      0 ≤ o ∧
      o + (compute_sample_positions total_frames sr interval_seconds num_samples).2
        ≤ total_frames := by
  have heq : compute_sample_positions total_frames sr interval_seconds num_samples =
      (np_unique ((List.range (max 1 num_samples).toNat).map fun (i : Nat) =>
        (i : Int) * (total_frames - sr * interval_seconds) / (max 1 num_samples - 1)),
       sr * interval_seconds) := by
    simp only [compute_sample_positions]
    rw [if_neg (by push_neg; exact ⟨hsr, htf, hfpi⟩), if_neg (not_le.mpr hlong)]
  rw [heq]
  have hm : (0 : Int) < total_frames - sr * interval_seconds := by omega
  have hnum : (1 : Int) ≤ max 1 num_samples := le_max_left 1 num_samples
  refine ⟨rfl, np_unique_sorted_lt _, ?_, ?_⟩
  · have hnumpos : 0 < (max 1 num_samples).toNat := by omega
    have h0mem : (0 : Int) ∈ (List.range (max 1 num_samples).toNat).map fun (i : Nat) =>
        (i : Int) * (total_frames - sr * interval_seconds) / (max 1 num_samples - 1) := by
      refine List.mem_map.mpr ⟨0, List.mem_range.mpr hnumpos, ?_⟩
      simp
    exact List.ne_nil_of_mem (np_unique_mem.mpr h0mem)
  · intro o ho
    obtain ⟨i, hi, rfl⟩ := List.mem_map.mp (np_unique_mem.mp ho)
    rw [List.mem_range] at hi
    constructor
    · exact Int.ediv_nonneg (mul_nonneg (Int.natCast_nonneg i) hm.le) (by omega)
    · have hbound : (i : Int) * (total_frames - sr * interval_seconds) /
          (max 1 num_samples - 1) ≤ total_frames - sr * interval_seconds := by
        rcases eq_or_lt_of_le hnum with h1 | h2
        · rw [← h1]
          norm_num
          omega
        · have hile : (i : Int) ≤ max 1 num_samples - 1 := by omega
          calc (i : Int) * (total_frames - sr * interval_seconds) /
                (max 1 num_samples - 1)
              ≤ (max 1 num_samples - 1) * (total_frames - sr * interval_seconds) /
                (max 1 num_samples - 1) :=
                Int.ediv_le_ediv (by omega)
                  (mul_le_mul_of_nonneg_right hile hm.le)
            _ = total_frames - sr * interval_seconds :=
                Int.mul_ediv_cancel_left _ (by omega)
      omega

/-- Witness for C6: a 5-frame file at 1 Hz with 1-second chunks and 2
requested samples is planned as `[0, 4]`: strictly ascending, and offset 4
still fits a full chunk (`4 + 1 ≤ 5`). -/
theorem plan_long_file_offsets_witness :
    List.Sorted (· < ·) (compute_sample_positions 5 1 1 2).1 ∧
    (compute_sample_positions 5 1 1 2).1 ≠ [] ∧
    (0 : Int) ≤ 4 ∧ 4 + (compute_sample_positions 5 1 1 2).2 ≤ 5 := by
  have h := plan_long_file_offsets_ascending_bounded 5 1 1 2
    (by decide) (by decide) (by decide) (by decide)
  exact ⟨h.2.1, h.2.2.1, h.2.2.2 4 (by decide)⟩

/-- The rational `1/10000`, i.e. the source's `SILENCE_THRESHOLD = 1e-4`,
written as an explicit reduced fraction so that kernel reduction of the
fixtures below does not need rational division. -/
def thr_default : ℚ := ⟨1, 10000, by decide, Nat.coprime_one_left _⟩

/-- A configuration mirroring the hard-coded constants of `cleanup.py`:
`INTERVAL_SECONDS = 7`, `NUM_SAMPLES_PER_FILE = 16`,
`SILENCE_THRESHOLD = 1e-4`, `MIN_SIZE_BYTES = 0`. -/
def cfg0 : Config :=
  { interval_seconds := 7, num_samples_per_file := 16
    silence_threshold := thr_default, min_size_bytes := 0 }

/-- A configuration with 1-second chunks and 2 samples per file, used to
exercise multi-chunk plans on tiny fixtures. -/
def cfg1 : Config :=
  { interval_seconds := 1, num_samples_per_file := 2
    silence_threshold := thr_default, min_size_bytes := 0 }

/-- A zero-length (0 frames) but well-formed audio stream. -/
def audio_empty : AudioInfo :=
  { samplerate := 48000, channels := 1, total_frames := 0
    readChunk := fun _ _ => .ok [] }

/-- A file whose audio stream has zero frames. -/
def file_empty : WavFile :=
  { path := "empty.wav", stat := .ok 44, openSf := .ok audio_empty }

/-- Claim C7: every degenerate planner input (`sampleRate ≤ 0`,
`totalFrames ≤ 0`, or `framesPerChunk ≤ 0`) yields an empty offset set;
every file whose plan is empty is classified ERROR with the detail that
sample positions could not be computed, and in particular never SILENT;
and a zero-length audio file (`totalFrames ≤ 0`) is classified ERROR with
that detail. -/
theorem empty_plan_yields_error :
    (∀ total_frames sr interval_seconds num_samples : Int,
      sr ≤ 0 ∨ total_frames ≤ 0 ∨ sr * interval_seconds ≤ 0 →
      (compute_sample_positions total_frames sr interval_seconds num_samples).1 = []) ∧
    (∀ (cfg : Config) (f : WavFile) (size : Nat) (a : AudioInfo),
      f.stat = .ok size → ¬ size < cfg.min_size_bytes → f.openSf = .ok a →
      (planOf cfg a).1 = [] →
      (scan_wav_for_silence cfg f).decision = "ERROR" ∧
      (scan_wav_for_silence cfg f).detail = .couldNotComputePositions ∧
      (scan_wav_for_silence cfg f).decision ≠ "SILENT") ∧
    (∀ (cfg : Config) (f : WavFile) (size : Nat) (a : AudioInfo),
      f.stat = .ok size → ¬ size < cfg.min_size_bytes → f.openSf = .ok a →
      a.total_frames ≤ 0 →
      (scan_wav_for_silence cfg f).decision = "ERROR" ∧
      (scan_wav_for_silence cfg f).detail = .couldNotComputePositions) := by
  have hpart1 : ∀ total_frames sr interval_seconds num_samples : Int,
      sr ≤ 0 ∨ total_frames ≤ 0 ∨ sr * interval_seconds ≤ 0 →
      (compute_sample_positions total_frames sr interval_seconds num_samples).1 = [] := by
    intro total_frames sr interval_seconds num_samples h
    simp only [compute_sample_positions]
    rw [if_pos h]
  have hpart2 : ∀ (cfg : Config) (f : WavFile) (size : Nat) (a : AudioInfo),
      f.stat = .ok size → ¬ size < cfg.min_size_bytes → f.openSf = .ok a →
      (planOf cfg a).1 = [] →
      (scan_wav_for_silence cfg f).decision = "ERROR" ∧
      (scan_wav_for_silence cfg f).detail = .couldNotComputePositions ∧
      (scan_wav_for_silence cfg f).decision ≠ "SILENT" := by
    intro cfg f size a hstat hgate hopen hpl
    rw [scan_wav_empty_plan cfg f size a hstat hgate hopen hpl]
    exact ⟨rfl, rfl, by simp⟩
  refine ⟨hpart1, hpart2, ?_⟩
  intro cfg f size a hstat hgate hopen htf
  have hpl : (planOf cfg a).1 = [] := by
    rw [planOf]
    exact hpart1 _ _ _ _ (Or.inr (Or.inl htf))
  exact ⟨(hpart2 cfg f size a hstat hgate hopen hpl).1,
    (hpart2 cfg f size a hstat hgate hopen hpl).2.1⟩

/-- Witness for C7: a zero-frame stream under the default configuration
has an empty plan, and `file_empty` is classified ERROR (not SILENT) with
the could-not-compute detail. -/
theorem empty_plan_yields_error_witness :
    (compute_sample_positions 0 48000 7 16).1 = [] ∧
    (scan_wav_for_silence cfg0 file_empty).decision = "ERROR" ∧
    (scan_wav_for_silence cfg0 file_empty).detail = .couldNotComputePositions ∧
    (scan_wav_for_silence cfg0 file_empty).decision ≠ "SILENT" := by
  have h2 := empty_plan_yields_error.2.1 cfg0 file_empty 44 audio_empty rfl
    (by decide) rfl (by decide)
  exact ⟨empty_plan_yields_error.1 0 48000 7 16 (Or.inr (Or.inl le_rfl)),
    h2.1, h2.2.1, h2.2.2⟩

/-- A file whose `stat` call raises. -/
def file_stat_fail : WavFile :=
  { path := "a.wav", stat := .error ⟨"PermissionError", "stat denied"⟩
    openSf := .error ⟨"PermissionError", "stat denied"⟩ }

/-- A file whose soundfile open raises. -/
def file_open_fail : WavFile :=
  { path := "b.wav", stat := .ok 100
    openSf := .error ⟨"LibsndfileError", "unrecognized container"⟩ }

/-- An audio stream whose every read raises. -/
def audio_read_fail : AudioInfo :=
  { samplerate := 1, channels := 1, total_frames := 5
    readChunk := fun _ _ => .error ⟨"LibsndfileError", "decode failure"⟩ }

/-- A file that opens fine but fails on its first chunk read. -/
def file_read_fail : WavFile :=
  { path := "c.wav", stat := .ok 100, openSf := .ok audio_read_fail }

/-- Claim C4: the classifier is a total function into `ScanResult` (it
never raises), and every failure — at stat, at open, or at any chunk read
during the scan — produces the uniform ERROR outcome that carries the
exception's class name and message as detail, with zeroed size, duration,
samplerate, channels, `num_samples_used` and `max_abs_seen`. -/
theorem scan_failures_become_error_outcome (cfg : Config) (f : WavFile) (e : PyExc) :
    (f.stat = .error e → scan_wav_for_silence cfg f = error_outcome cfg f.path e) ∧
    (∀ size : Nat, f.stat = .ok size → ¬ size < cfg.min_size_bytes →
      f.openSf = .error e → scan_wav_for_silence cfg f = error_outcome cfg f.path e) ∧
    (∀ (size : Nat) (a : AudioInfo), f.stat = .ok size → ¬ size < cfg.min_size_bytes →
      f.openSf = .ok a → (planOf cfg a).1 ≠ [] →
      scan_chunks a.readChunk (planOf cfg a).2 cfg.silence_threshold (planOf cfg a).1 0 =
        .err e →
      scan_wav_for_silence cfg f = error_outcome cfg f.path e) ∧
    ((error_outcome cfg f.path e).decision = "ERROR" ∧
      (error_outcome cfg f.path e).detail = .exceptionCaught e.excName e.excMsg ∧
      (error_outcome cfg f.path e).size_bytes = 0 ∧
      (error_outcome cfg f.path e).duration_sec = 0 ∧
      (error_outcome cfg f.path e).samplerate = 0 ∧
      (error_outcome cfg f.path e).channels = 0 ∧
      (error_outcome cfg f.path e).num_samples_used = 0 ∧
      (error_outcome cfg f.path e).max_abs_seen = 0) :=
  ⟨fun h => scan_wav_stat_error cfg f e h,
   fun size hstat hgate hopen => scan_wav_open_error cfg f size e hstat hgate hopen,
   fun size a hstat hgate hopen hpl hloop =>
     scan_wav_loop_err cfg f size a e hstat hgate hopen hpl hloop,
   rfl, rfl, rfl, rfl, rfl, rfl, rfl, rfl⟩

/-- Witness for C4: a stat failure, an open failure and a read failure are
each converted into the corresponding uniform ERROR outcome. -/
theorem scan_failures_become_error_outcome_witness :
    scan_wav_for_silence cfg0 file_stat_fail =
      error_outcome cfg0 "a.wav" ⟨"PermissionError", "stat denied"⟩ ∧
    scan_wav_for_silence cfg0 file_open_fail =
      error_outcome cfg0 "b.wav" ⟨"LibsndfileError", "unrecognized container"⟩ ∧
    scan_wav_for_silence cfg0 file_read_fail =
      error_outcome cfg0 "c.wav" ⟨"LibsndfileError", "decode failure"⟩ :=
  ⟨(scan_failures_become_error_outcome cfg0 file_stat_fail _).1 rfl,
   (scan_failures_become_error_outcome cfg0 file_open_fail _).2.1 100 rfl (by decide) rfl,
   (scan_failures_become_error_outcome cfg0 file_read_fail _).2.2.1 100 audio_read_fail
     rfl (by decide) rfl (by decide) (by decide)⟩

/-- Claim C1: for every file classified without failure whose chunk-scan
loop completes without early exit, the classifier returns decision SILENT,
every probed chunk's peak is at most the threshold, `max_abs_seen` equals
the largest peak observed across all probed chunks (the fold of `max` over
`peaksOf`, starting from the loop's initial accumulator 0), and
`num_samples_used` equals the number of planned (deduplicated) offsets. -/
theorem scan_silent_when_loop_completes (cfg : Config) (f : WavFile)
    (size : Nat) (a : AudioInfo) (m : ℚ)
    (hstat : f.stat = .ok size) (hgate : ¬ size < cfg.min_size_bytes)
    (hopen : f.openSf = .ok a) (hpl : (planOf cfg a).1 ≠ [])
    (hloop : scan_chunks a.readChunk (planOf cfg a).2 cfg.silence_threshold
      (planOf cfg a).1 0 = .silent m) :
    (scan_wav_for_silence cfg f).decision = "SILENT" ∧
    (∀ p ∈ peaksOf a.readChunk (planOf cfg a).2 (planOf cfg a).1,
      p ≤ cfg.silence_threshold) ∧
    (scan_wav_for_silence cfg f).max_abs_seen =
      (peaksOf a.readChunk (planOf cfg a).2 (planOf cfg a).1).foldl max 0 ∧
    (scan_wav_for_silence cfg f).num_samples_used = (planOf cfg a).1.length := by
  have hspec := scan_chunks_silent_spec a.readChunk (planOf cfg a).2
    cfg.silence_threshold (planOf cfg a).1 0 m hloop
  rw [scan_wav_loop_silent cfg f size a m hstat hgate hopen hpl hloop]
  exact ⟨rfl, hspec.1, hspec.2, rfl⟩

/-- An all-silent audio stream: 5 frames at 1 Hz, every read returns one
zero sample. -/
def audio_silent : AudioInfo :=
  { samplerate := 1, channels := 1, total_frames := 5
    readChunk := fun _ _ => .ok [0] }

/-- A file whose audio is entirely silent. -/
def file_silent : WavFile :=
  { path := "silent.wav", stat := .ok 100, openSf := .ok audio_silent }

/-- Witness for C1: `file_silent` under `cfg0` completes its loop and is
classified SILENT, its single probed peak 0 is at most the threshold, and
the reported maximum and sample count match. -/
theorem scan_silent_when_loop_completes_witness :
    (scan_wav_for_silence cfg0 file_silent).decision = "SILENT" ∧
    (0 : ℚ) ≤ cfg0.silence_threshold ∧
    (scan_wav_for_silence cfg0 file_silent).max_abs_seen =
      (peaksOf audio_silent.readChunk (planOf cfg0 audio_silent).2
        (planOf cfg0 audio_silent).1).foldl max 0 ∧
    (scan_wav_for_silence cfg0 file_silent).num_samples_used =
      (planOf cfg0 audio_silent).1.length := by
  have h := scan_silent_when_loop_completes cfg0 file_silent 100 audio_silent 0
    rfl (by decide) rfl (by decide) (by decide)
  exact ⟨h.1, h.2.1 0 (by decide), h.2.2.1, h.2.2.2⟩

/-- Claim C2: for every file where some probed chunk's peak strictly
exceeds the threshold — the plan splits as `pre ++ k :: post` with every
chunk before `k` read back empty or with peak at most the threshold, and
the chunk at `k` nonempty with peak above it — the classifier returns KEEP
with `max_abs_seen` equal to that violating chunk's peak,
`num_samples_used` equal to the number of planned offsets (not the number
actually read), and a detail citing the violating peak; and the loop's
outcome is the same for any continuation of the plan after `k` and any
reader agreeing with this one on `pre` and `k`, so chunks after the
violating one are never examined. -/
theorem scan_keep_stops_at_first_violation (cfg : Config) (f : WavFile)
    (size : Nat) (a : AudioInfo) (pre post : List Int) (k : Int) (d : List ℚ)
    (hstat : f.stat = .ok size) (hgate : ¬ size < cfg.min_size_bytes)
    (hopen : f.openSf = .ok a)
    (hplan : (planOf cfg a).1 = pre ++ k :: post)
    (hpre : ∀ s ∈ pre, ∃ dd, a.readChunk s (planOf cfg a).2 = .ok dd ∧
      (dd ≠ [] → peakAbs dd ≤ cfg.silence_threshold))
    (hk : a.readChunk k (planOf cfg a).2 = .ok d) (hd : d ≠ [])
    (hv : cfg.silence_threshold < peakAbs d) :
    (scan_wav_for_silence cfg f).decision = "KEEP" ∧
    (scan_wav_for_silence cfg f).max_abs_seen = peakAbs d ∧
    (scan_wav_for_silence cfg f).num_samples_used = (planOf cfg a).1.length ∧
    (scan_wav_for_silence cfg f).detail = .nonSilentChunk (peakAbs d) ∧
    ∀ (rd : Int → Int → Except PyExc (List ℚ)) (post' : List Int),
      (∀ s ∈ pre, rd s (planOf cfg a).2 = a.readChunk s (planOf cfg a).2) →
      rd k (planOf cfg a).2 = a.readChunk k (planOf cfg a).2 →
      scan_chunks rd (planOf cfg a).2 cfg.silence_threshold (pre ++ k :: post') 0 =
        .keep (peakAbs d) (peakAbs d) := by
  have hloop : scan_chunks a.readChunk (planOf cfg a).2 cfg.silence_threshold
      (planOf cfg a).1 0 = .keep (peakAbs d) (peakAbs d) := by
    rw [hplan]
    exact scan_chunks_keep_first a.readChunk (planOf cfg a).2 cfg.silence_threshold
      pre k post d 0 hpre hk hd hv le_rfl (peakAbs_nonneg d)
  have hne : (planOf cfg a).1 ≠ [] := by
    rw [hplan]; exact List.append_ne_nil_of_right_ne_nil _ (List.cons_ne_nil k post)
  rw [scan_wav_loop_keep cfg f size a (peakAbs d) (peakAbs d)
    hstat hgate hopen hne hloop]
  refine ⟨rfl, rfl, rfl, rfl, ?_⟩
  intro rd post' hagr hagrk
  refine scan_chunks_keep_first rd (planOf cfg a).2 cfg.silence_threshold
    pre k post' d 0 ?_ ?_ hd hv le_rfl (peakAbs_nonneg d)
  · intro s hs
    obtain ⟨dd, hr, hb⟩ := hpre s hs
    exact ⟨dd, by rw [hagr s hs]; exact hr, hb⟩
  · rw [hagrk]; exact hk

/-- An audio stream that is quiet at offset 0 but loud at offset 4:
5 frames at 1 Hz. -/
def audio_loud : AudioInfo :=
  { samplerate := 1, channels := 1, total_frames := 5
    readChunk := fun s _ => if s = 0 then .ok [0] else .ok [1] }

/-- A file whose second probed chunk is loud. -/
def file_loud : WavFile :=
  { path := "loud.wav", stat := .ok 100, openSf := .ok audio_loud }

/-- Witness for C2: `file_loud` under `cfg1` plans `[0, 4]`, the chunk at
offset 4 violates the threshold, and the classifier reports KEEP with that
chunk's peak; the loop stops at offset 4 for any continuation and any
agreeing reader. -/
theorem scan_keep_stops_at_first_violation_witness :
    (scan_wav_for_silence cfg1 file_loud).decision = "KEEP" ∧
    (scan_wav_for_silence cfg1 file_loud).max_abs_seen = peakAbs [1] ∧
    (scan_wav_for_silence cfg1 file_loud).num_samples_used =
      (planOf cfg1 audio_loud).1.length ∧
    (scan_wav_for_silence cfg1 file_loud).detail = .nonSilentChunk (peakAbs [1]) ∧
    scan_chunks (fun s _ => if s = 0 then .ok [0] else if s = 4 then .ok [1]
        else .error ⟨"ValueError", "offset never probed"⟩)
      (planOf cfg1 audio_loud).2 cfg1.silence_threshold ([0] ++ 4 :: [7]) 0 =
      .keep (peakAbs [1]) (peakAbs [1]) := by
  have h := scan_keep_stops_at_first_violation cfg1 file_loud 100 audio_loud
    [0] [] 4 [1] rfl (by decide) rfl (by decide)
    (by
      intro s hs
      simp only [List.mem_singleton] at hs
      subst hs
      exact ⟨[0], rfl, fun _ => by decide⟩)
    rfl (by decide) (by decide)
  exact ⟨h.1, h.2.1, h.2.2.1, h.2.2.2.1,
    h.2.2.2.2 _ [7] (by intro s hs; simp only [List.mem_singleton] at hs; subst hs; rfl)
      rfl⟩

/-- Claim C3: the non-silence comparison is strict.  For a probed chunk
that reads back nonempty data, a peak exactly equal to the threshold does
not trigger KEEP — the loop merges it into the running maximum and keeps
scanning, exactly as for any silent chunk — while a peak strictly above
the threshold returns KEEP immediately. -/
theorem threshold_equality_is_silent (read : Int → Int → Except PyExc (List ℚ))
    (fpi : Int) (thr : ℚ) (s : Int) (rest : List Int) (m0 : ℚ) (d : List ℚ)
    (hr : read s fpi = .ok d) (hd : d ≠ []) :
    (peakAbs d = thr →
      scan_chunks read fpi thr (s :: rest) m0 =
        scan_chunks read fpi thr rest (max m0 thr)) ∧
    (thr < peakAbs d →
      scan_chunks read fpi thr (s :: rest) m0 =
        .keep (peakAbs d) (max m0 (peakAbs d))) := by
  constructor
  · intro heq
    rw [scan_chunks, hr]
    dsimp only
    rw [if_neg hd, heq, if_neg (lt_irrefl thr)]
  · intro hv
    rw [scan_chunks, hr]
    dsimp only
    rw [if_neg hd, if_pos hv]

/-- Witness for C3: with threshold 1, a chunk whose peak is exactly 1 is
folded into the running maximum and scanning continues, while a chunk with
peak 2 triggers KEEP. -/
theorem threshold_equality_is_silent_witness :
    scan_chunks (fun _ _ => .ok [1]) 7 1 [0] 0 =
      scan_chunks (fun _ _ => .ok [1]) 7 1 [] (max 0 1) ∧
    scan_chunks (fun _ _ => .ok [2]) 7 1 [0] 0 =
      .keep (peakAbs [2]) (max 0 (peakAbs [2])) :=
  ⟨(threshold_equality_is_silent (fun _ _ => .ok [1]) 7 1 0 [] 0
      [1] rfl (by decide)).1 (by decide),
   (threshold_equality_is_silent (fun _ _ => .ok [2]) 7 1 0 [] 0
      [2] rfl (by decide)).2 (by decide)⟩

/-- Claim C10: for every file classified without failure whose plan is
nonempty but where every planned chunk read returns no data (each read is
empty and skipped), the classifier returns SILENT with `max_abs_seen = 0`
and `num_samples_used` equal to the number of planned offsets — silence is
concluded without a single amplitude ever having been measured. -/
theorem all_empty_reads_classified_silent (cfg : Config) (f : WavFile)
    (size : Nat) (a : AudioInfo)
    (hstat : f.stat = .ok size) (hgate : ¬ size < cfg.min_size_bytes)
    (hopen : f.openSf = .ok a) (hpl : (planOf cfg a).1 ≠ [])
    (hreads : ∀ s ∈ (planOf cfg a).1, a.readChunk s (planOf cfg a).2 = .ok []) :
    (scan_wav_for_silence cfg f).decision = "SILENT" ∧
    (scan_wav_for_silence cfg f).max_abs_seen = 0 ∧
    (scan_wav_for_silence cfg f).num_samples_used = (planOf cfg a).1.length := by
  have hloop := scan_chunks_all_empty a.readChunk (planOf cfg a).2
    cfg.silence_threshold (planOf cfg a).1 0 hreads
  rw [scan_wav_loop_silent cfg f size a 0 hstat hgate hopen hpl hloop]
  exact ⟨rfl, rfl, rfl⟩

/-- A stream with 5 frames at 1 Hz whose every read returns no data. -/
def audio_no_data : AudioInfo :=
  { samplerate := 1, channels := 1, total_frames := 5
    readChunk := fun _ _ => .ok [] }

/-- A file whose every planned chunk read comes back empty. -/
def file_no_data : WavFile :=
  { path := "nodata.wav", stat := .ok 100, openSf := .ok audio_no_data }

/-- Witness for C10: `file_no_data` has the nonempty plan `[0]`, every
read returns no data, and the classifier still reports SILENT with zero
maximum amplitude and `num_samples_used = 1`. -/
theorem all_empty_reads_classified_silent_witness :
    (scan_wav_for_silence cfg0 file_no_data).decision = "SILENT" ∧
    (scan_wav_for_silence cfg0 file_no_data).max_abs_seen = 0 ∧
    (scan_wav_for_silence cfg0 file_no_data).num_samples_used =
      (planOf cfg0 audio_no_data).1.length :=
  all_empty_reads_classified_silent cfg0 file_no_data 100 audio_no_data
    rfl (by decide) rfl (by decide) (by intro s hs; rfl)

/-- One pipeline step either leaves the attempted-deletion record alone,
or appends the current outcome to it — and the latter only when the
outcome is SILENT and the mode is DELETE. -/
theorem process_outcome_attempts (mode : Mode) (remove : String → Except PyExc Unit)
    (st : RunState) (res : ScanResult) :
    (process_outcome mode remove st res).delete_attempts = st.delete_attempts ∨
    ((process_outcome mode remove st res).delete_attempts =
        st.delete_attempts ++ [res] ∧
      res.decision = "SILENT" ∧ mode = .DELETE) := by
  by_cases h1 : res.decision = "SILENT"
  · cases mode with
    | AUDIT => left; simp [process_outcome, h1]
    | DELETE =>
      right
      refine ⟨?_, h1, rfl⟩
      cases hrm : remove res.path with
      | ok u => simp [process_outcome, h1, hrm]
      | error e => simp [process_outcome, h1, hrm]
  · by_cases h2 : res.decision = "ERROR"
    · left; simp [process_outcome, h1, h2]
    · left; simp [process_outcome, h1, h2]

/-- In DELETE mode a SILENT outcome is recorded as exactly one new
deletion attempt, whether the removal succeeds or fails. -/
theorem process_outcome_delete_silent_attempts (remove : String → Except PyExc Unit)
    (st : RunState) (res : ScanResult) (h1 : res.decision = "SILENT") :
    (process_outcome .DELETE remove st res).delete_attempts =
      st.delete_attempts ++ [res] := by
  cases hrm : remove res.path with
  | ok u => simp [process_outcome, h1, hrm]
  | error e => simp [process_outcome, h1, hrm]

/-- In AUDIT mode a pipeline step never records a deletion attempt. -/
theorem process_outcome_audit_attempts (remove : String → Except PyExc Unit)
    (st : RunState) (res : ScanResult) :
    (process_outcome .AUDIT remove st res).delete_attempts = st.delete_attempts := by
  rcases process_outcome_attempts .AUDIT remove st res with h | ⟨_, _, hmode⟩
  · exact h
  · exact absurd hmode (by decide)

/-- Folding the pipeline step over any file list preserves the invariant
that every recorded deletion attempt is a SILENT outcome. -/
theorem run_scan_attempts_aux (mode : Mode) (remove : String → Except PyExc Unit)
    (cfg : Config) (files : List WavFile) (st : RunState)
    (h : ∀ r ∈ st.delete_attempts, r.decision = "SILENT") :
    ∀ r ∈ (files.foldl
        (fun acc f => process_outcome mode remove acc (scan_wav_for_silence cfg f))
        st).delete_attempts,
      r.decision = "SILENT" := by
  induction files generalizing st with
  | nil => simpa using h
  | cons f fs ih =>
    rw [List.foldl_cons]
    apply ih
    rcases process_outcome_attempts mode remove st (scan_wav_for_silence cfg f)
      with heq | ⟨heq, hs, _⟩
    · rw [heq]; exact h
    · rw [heq]
      intro r hr
      rcases List.mem_append.mp hr with hr | hr
      · exact h r hr
      · rw [List.mem_singleton.mp hr]; exact hs

/-- Folding the pipeline step in AUDIT mode never touches the
attempted-deletion record. -/
theorem run_scan_audit_aux (remove : String → Except PyExc Unit)
    (cfg : Config) (files : List WavFile) (st : RunState) :
    (files.foldl
        (fun acc f => process_outcome .AUDIT remove acc (scan_wav_for_silence cfg f))
        st).delete_attempts = st.delete_attempts := by
  induction files generalizing st with
  | nil => rfl
  | cons f fs ih =>
    rw [List.foldl_cons, ih, process_outcome_audit_attempts]

/-- Claim C8: over any run on any file list, every file whose deletion the
pipeline attempts was classified SILENT — a KEEP or ERROR outcome is never
passed to `os.remove` — and in report-only (AUDIT) mode no deletion is
ever attempted at all. -/
theorem destructive_mode_deletes_only_silent :
    (∀ (mode : Mode) (remove : String → Except PyExc Unit) (cfg : Config)
        (files : List WavFile),
      ∀ r ∈ (run_scan mode remove cfg files).delete_attempts,
        r.decision = "SILENT") ∧
    (∀ (remove : String → Except PyExc Unit) (cfg : Config) (files : List WavFile),
      (run_scan .AUDIT remove cfg files).delete_attempts = []) := by
  constructor
  · intro mode remove cfg files
    exact run_scan_attempts_aux mode remove cfg files initState
      (by intro r hr; simp [initState] at hr)
  · intro remove cfg files
    rw [run_scan, run_scan_audit_aux]
    rfl

/-- Witness for C8: running DELETE mode over the single silent file
records exactly its SILENT outcome as the one attempted deletion, and the
same run in AUDIT mode attempts none. -/
theorem destructive_mode_deletes_only_silent_witness :
    scan_wav_for_silence cfg0 file_silent ∈
      (run_scan .DELETE (fun _ => .ok ()) cfg0 [file_silent]).delete_attempts ∧
    (scan_wav_for_silence cfg0 file_silent).decision = "SILENT" ∧
    (run_scan .AUDIT (fun _ => .ok ()) cfg0 [file_silent]).delete_attempts = [] := by
  have hdec : (scan_wav_for_silence cfg0 file_silent).decision = "SILENT" := by decide
  have hmem : scan_wav_for_silence cfg0 file_silent ∈
      (run_scan .DELETE (fun _ => .ok ()) cfg0 [file_silent]).delete_attempts := by
    rw [run_scan, List.foldl_cons, List.foldl_nil,
      process_outcome_delete_silent_attempts _ _ _ hdec]
    simp [initState]
  exact ⟨hmem,
    destructive_mode_deletes_only_silent.1 .DELETE (fun _ => .ok ()) cfg0
      [file_silent] _ hmem,
    destructive_mode_deletes_only_silent.2 (fun _ => .ok ()) cfg0 [file_silent]⟩

/-- Claim C9: when deletion of a SILENT file fails, the pipeline step
increments the error counter by one, leaves the deleted counter and the
reclaimed-byte total untouched, keeps the original SILENT row and appends
a synthetic ERROR row — sharing the original's path and cloning its
metadata fields, with decision ERROR and a delete-failed detail — so the
report holds two rows for that path, and the run continues with the usual
scanned/silent/flaggable-bytes accounting. -/
theorem delete_failure_records_synthetic_error
    (remove : String → Except PyExc Unit) (st : RunState) (res : ScanResult)
    (e : PyExc)
    (hres : res.decision = "SILENT") (hrm : remove res.path = .error e) :
    (process_outcome .DELETE remove st res).error_count = st.error_count + 1 ∧
    (process_outcome .DELETE remove st res).deleted_count = st.deleted_count ∧
    (process_outcome .DELETE remove st res).bytes_deleted_savings =
      st.bytes_deleted_savings ∧
    (process_outcome .DELETE remove st res).scanned = st.scanned + 1 ∧
    (process_outcome .DELETE remove st res).silent_candidates =
      st.silent_candidates + 1 ∧
    (process_outcome .DELETE remove st res).bytes_candidate_savings =
      st.bytes_candidate_savings + res.size_bytes ∧
    (process_outcome .DELETE remove st res).report_rows =
      st.report_rows ++ [res, delete_failed_row res e] ∧
    (delete_failed_row res e).decision = "ERROR" ∧
    (delete_failed_row res e).detail = .deleteFailed e.excName e.excMsg ∧
    (delete_failed_row res e).path = res.path ∧
    (delete_failed_row res e).size_bytes = res.size_bytes ∧
    (delete_failed_row res e).duration_sec = res.duration_sec ∧
    (delete_failed_row res e).samplerate = res.samplerate ∧
    (delete_failed_row res e).channels = res.channels ∧
    (delete_failed_row res e).interval_seconds = res.interval_seconds ∧
    (delete_failed_row res e).num_samples_used = res.num_samples_used ∧
    (delete_failed_row res e).threshold = res.threshold ∧
    (delete_failed_row res e).max_abs_seen = res.max_abs_seen := by
  refine ⟨?_, ?_, ?_, ?_, ?_, ?_, ?_, rfl, rfl, rfl, rfl, rfl, rfl, rfl, rfl, rfl,
    rfl, rfl⟩ <;>
    simp [process_outcome, hres, hrm]

/-- A SILENT outcome used to exercise the delete-failure path. -/
def res_silent : ScanResult :=
  { path := "res.wav", decision := "SILENT", detail := .allBelowThreshold
    size_bytes := 100, duration_sec := 5, samplerate := 1, channels := 1
    interval_seconds := 7, num_samples_used := 1, threshold := thr_default
    max_abs_seen := 0 }

/-- Witness for C9: a failing `os.remove` on `res_silent` from the initial
state yields one error, no deletion, both rows, and a synthetic row that
clones the original's metadata. -/
theorem delete_failure_records_synthetic_error_witness :
    (process_outcome .DELETE (fun _ => .error ⟨"PermissionError", "denied"⟩)
        initState res_silent).error_count = initState.error_count + 1 ∧
    (process_outcome .DELETE (fun _ => .error ⟨"PermissionError", "denied"⟩)
        initState res_silent).deleted_count = initState.deleted_count ∧
    (process_outcome .DELETE (fun _ => .error ⟨"PermissionError", "denied"⟩)
        initState res_silent).bytes_deleted_savings =
      initState.bytes_deleted_savings ∧
    (process_outcome .DELETE (fun _ => .error ⟨"PermissionError", "denied"⟩)
        initState res_silent).report_rows =
      initState.report_rows ++
        [res_silent, delete_failed_row res_silent ⟨"PermissionError", "denied"⟩] ∧
    (delete_failed_row res_silent ⟨"PermissionError", "denied"⟩).decision = "ERROR" ∧
    (delete_failed_row res_silent ⟨"PermissionError", "denied"⟩).path =
      res_silent.path := by
  have h := delete_failure_records_synthetic_error
    (fun _ => .error ⟨"PermissionError", "denied"⟩) initState res_silent
    ⟨"PermissionError", "denied"⟩ rfl rfl
  exact ⟨h.1, h.2.1, h.2.2.1, h.2.2.2.2.2.2.1, h.2.2.2.2.2.2.2.1,
    h.2.2.2.2.2.2.2.2.2.1⟩

example : (compute_sample_positions 5 1 1 2).1 = [0, 4] := by decide
example : (compute_sample_positions 5 1 1 16).1 = [0, 1, 2, 3, 4] := by decide
example : (compute_sample_positions 3 1 7 16).1 = [0] := by decide
example : (compute_sample_positions 0 48000 7 16).1 = [] := by decide
